import Mathlib

/-!
Shallow embedding of MateBot's transfer and ledger-integrity subsystem
(`src/mate_bot/state/transactions.py`).

The user directory and database helper (`mate_bot.state.user`,
`mate_bot.state.dbhelper`) are external collaborators of this core; the
spec describes them as the Account Store / Ledger Store interface
(balances, identity resolution, the `transactions` table with an
auto-increment id).  They are modelled here as an explicit `DbState`
threaded through the operations; store-level failures inside the atomic
unit of `Transaction.commit` are modelled by an injected `FailStep`.
-/

/-- A UTC instant with the resolution of a Python `datetime`: whole
seconds relative to the epoch plus a sub-second microsecond part
(`micro < 1000000` for well-formed instants). -/
structure Instant where
  sec : Int
  micro : Nat
deriving DecidableEq

/-- Python `int(dt.timestamp())` as used by `TransactionLog.to_json`:
truncation toward zero of the real number `sec + micro / 1000000`. -/
def Instant.intTimestamp (t : Instant) : Int :=
  if t.micro = 0 then t.sec else if 0 ≤ t.sec then t.sec else t.sec + 1

/-- Re-deriving a UTC instant from an integer epoch-seconds value
(`datetime.utcfromtimestamp`): a whole-second instant. -/
def Instant.fromEpoch (n : Int) : Instant := ⟨n, 0⟩

/-- One row of the `transactions` table (a persisted ledger entry):
`id, sender, receiver, amount, reason, registered`. -/
structure Entry where
  eid : Int
  sender : Int
  receiver : Int
  amount : Int
  reason : Option String
  registered : Instant
deriving DecidableEq

/-- The persistent store consumed by the core: the append-only
`transactions` table in insertion order, the cached balance of every
user row (`readBalance`), identity resolution
(`BaseBotUser.get_tid_from_uid` / `resolveExists`), display names
(`BaseBotUser.get_name_from_uid` / `readIdentity`), and the next
auto-increment id (`LAST_INSERT_ID`). -/
structure DbState where
  ledger : List Entry
  balances : Int → Int
  tid : Int → Option Int
  name : Int → String
  nextId : Int

/-- The in-memory `Transaction` object: source and destination user ids,
amount in cent, optional reason, the `_committed` flag and the `_id`
assigned on commit. -/
structure Transaction where
  src : Int
  dst : Int
  amount : Int
  reason : Option String
  committed : Bool
  id : Option Int
deriving DecidableEq

/-- A Python value passed as a transaction endpoint: either a
`BaseBotUser` (or subclass) wrapping a user id, or any other object.
Models the duck-typed `isinstance(x, user.BaseBotUser)` check. -/
inductive PyObject
  | user (uid : Int)
  | other
deriving DecidableEq

/-- `isinstance(x, user.BaseBotUser)`. -/
def PyObject.isUser : PyObject → Bool
  | .user _ => true
  | .other => false

/-- The two construction-time failure conditions of `Transaction.__init__`:
`ValueError` for a non-positive amount, `TypeError` for a non-user endpoint. -/
inductive InitError
  | invalidAmount
  | invalidParticipant
deriving DecidableEq

/-- `Transaction.__init__`: reject `amount <= 0` first (`ValueError`),
then reject endpoints that are not `BaseBotUser` instances (`TypeError`);
otherwise produce the uncommitted object with no id. -/
def Transaction.init (src dst : PyObject) (amount : Int) (reason : Option String) :
    Except InitError Transaction :=
  if amount ≤ 0 then .error .invalidAmount
  else
    match src, dst with
    | .user su, .user du =>
        .ok { src := su, dst := du, amount := amount, reason := reason,
              committed := false, id := none }
    | _, _ => .error .invalidParticipant

/-- `Transaction.__init__` with the store threaded through: the
constructor performs no store calls, so the state passes through
unchanged on every path. -/
def Transaction.initS (s : DbState) (src dst : PyObject) (amount : Int)
    (reason : Option String) : DbState × Except InitError Transaction :=
  (s, Transaction.init src dst amount reason)

/-- A store-level failure point inside the atomic unit of
`Transaction.commit`, in the order the statements run: the two
balance refreshes, the `INSERT`, the `SELECT LAST_INSERT_ID()`, the
two balance `UPDATE`s, and `connection.commit()` itself.  All of these
precede the finalization of the atomic unit, so the uncommitted
connection is closed and every uncommitted store write is rolled back. -/
inductive FailStep
  | updateSrc
  | updateDst
  | insertEntry
  | selectId
  | updateBal1
  | updateBal2
  | finalize
deriving DecidableEq

/-- `Transaction.commit`.  Returns the new store state, the new object
state, and whether an exception was raised.

Faithful to the source: the non-positive-amount guards raise first;
work happens only when `not self._committed and self._id is None`;
the balances written are computed from the refreshed cached balances
read before either `UPDATE` (source row first, destination row second);
`self._id` is assigned from `LAST_INSERT_ID()` *inside* the try block,
so a failure at a later step leaves `_id` set on the object even though
the closed, unfinalized connection rolls every store write back. -/
def Transaction.commit (s : DbState) (t : Transaction) (now : Instant)
    (fail : Option FailStep) : DbState × Transaction × Bool :=
  if t.amount < 0 then (s, t, true)
  else if t.amount = 0 then (s, t, true)
  else if t.committed = false ∧ t.id = none then
    match fail with
    | some .updateSrc => (s, t, true)
    | some .updateDst => (s, t, true)
    | some .insertEntry => (s, t, true)
    | some .selectId => (s, t, true)
    | some .updateBal1 => (s, { t with id := some s.nextId }, true)
    | some .updateBal2 => (s, { t with id := some s.nextId }, true)
    | some .finalize => (s, { t with id := some s.nextId }, true)
    | none =>
        let srcBal := s.balances t.src
        let dstBal := s.balances t.dst
        let entry : Entry :=
          { eid := s.nextId, sender := t.src, receiver := t.dst,
            amount := t.amount, reason := t.reason, registered := now }
        let balances1 : Int → Int :=
          fun u => if u = t.src then srcBal - t.amount else s.balances u
        let balances2 : Int → Int :=
          fun u => if u = t.dst then dstBal + t.amount else balances1 u
        ({ s with ledger := s.ledger ++ [entry], balances := balances2,
                  nextId := s.nextId + 1 },
         { t with committed := true, id := some s.nextId }, false)
  else (s, t, false)

/-- The ledger view object `TransactionLog`: target user id, direction
mode, the fetched snapshot, and the `_valid` flag.  `_valid` is a Python
value that may be `True`, `False` or `None` (the result of
`self._valid and self.validate()`), modelled as `Option Bool`. -/
structure TransactionLog where
  uid : Int
  mode : Int
  log : List Entry
  valid : Option Bool
deriving DecidableEq

/-- The snapshot query of `TransactionLog.__init__`: `mode < 0` selects
rows with `sender = uid`, `mode > 0` rows with `receiver = uid`, and
`mode == 0` rows with `sender = uid OR receiver = uid`, keeping the
store's natural order. -/
def fetchLog (s : DbState) (uid mode : Int) : List Entry :=
  if mode < 0 then s.ledger.filter (fun e => e.sender == uid)
  else if 0 < mode then s.ledger.filter (fun e => e.receiver == uid)
  else s.ledger.filter (fun e => e.sender == uid || e.receiver == uid)

/-- The signed fold inside `TransactionLog.validate`: walk the fetched
entries, add the amount when the target is the receiver, otherwise
subtract it when the target is the sender, and otherwise raise
`RuntimeError` (modelled as `.error ()`). -/
def signedFold (uid : Int) : List Entry → Int → Except Unit Int
  | [], start => .ok start
  | e :: rest, start =>
      if e.receiver = uid then signedFold uid rest (start + e.amount)
      else if e.sender = uid then signedFold uid rest (start - e.amount)
      else .error ()

/-- The same fold restricted to relevant entries (every entry names the
target as sender or receiver), as a total function. -/
def signedSum (uid : Int) : List Entry → Int → Int
  | [], start => start
  | e :: rest, start =>
      if e.receiver = uid then signedSum uid rest (start + e.amount)
      else signedSum uid rest (start - e.amount)

/-- `TransactionLog.validate`: return `None` (no verdict) for a non-zero
mode; otherwise read the account's current cached balance from the store
and compare it with the signed fold over the snapshot started at the
caller-supplied baseline. -/
def TransactionLog.validate (s : DbState) (tl : TransactionLog) (start : Int) :
    Except Unit (Option Bool) :=
  if tl.mode ≠ 0 then .ok none
  else
    (signedFold tl.uid tl.log start).map
      (fun total => some (decide (total = s.balances tl.uid)))

/-- Python `x and y` on the values `_valid` can take
(`True`, `False`, `None`): `False` short-circuits, `True` yields `y`. -/
def pyAnd (a b : Option Bool) : Option Bool :=
  match a with
  | some true => b
  | some false => some false
  | none => none

/-- `TransactionLog.__init__`: fetch the snapshot for the requested
mode, mark the view invalid when the query returned zero rows and the
target id does not resolve to a known user, then combine that flag with
the result of `validate()` using Python `and` semantics.  A
`RuntimeError` raised by `validate()` aborts the construction. -/
def TransactionLog.init (s : DbState) (uid mode : Int) : Except Unit TransactionLog :=
  let log := fetchLog s uid mode
  let v0 : Option Bool :=
    if log.length = 0 ∧ s.tid uid = none then some false else some true
  (TransactionLog.validate s { uid := uid, mode := mode, log := log, valid := v0 } 0).map
    (fun v => { uid := uid, mode := mode, log := log, valid := pyAnd v0 v })

/-- The placeholder shown for an absent reason in the human-readable
rendering (`DEFAULT_NULL_REASON_REPLACE`). -/
def DEFAULT_NULL_REASON_REPLACE : String := "<no description>"

/-- Two-digit rendering of the cent part. -/
def twoDigits (n : Nat) : String :=
  if n < 10 then "0" ++ toString n else toString n

/-- The `"{:>+6.2f}"` rendering of a signed amount in cent: explicit
sign, the amount divided by 100 with two decimals, right-aligned to
width 6.  (Computed exactly from the minor units; the source's float
detour is not modelled.) -/
def fixed2 (cents : Int) : String :=
  let sgn := if cents < 0 then "-" else "+"
  let a := cents.natAbs
  let core := sgn ++ toString (a / 100) ++ "." ++ twoDigits (a % 100)
  if core.length < 6 then
    String.mk (List.replicate (6 - core.length) ' ') ++ core
  else core

/-- The `"{:<11}"` rendering of the partner's display name:
left-aligned to width 11. -/
def padName (n : String) : String :=
  if n.length < 11 then n ++ String.mk (List.replicate (11 - n.length) ' ') else n

/-- Modelled from the spec: the `strftime`-based timestamp display and
the `pytz`/`tzlocal` time-zone conversion live in external libraries,
and the spec places "any formatting/localization of output" out of
scope of this core; the display is modelled as the UTC epoch value
tagged with the requested zone. -/
def renderTimestamp (localized : Bool) (t : Instant) : String :=
  (if localized then "local:" else "utc:") ++ toString t.intTimestamp

/-- One line of `TransactionLog.to_string`: substitute the null-reason
placeholder, pick direction `<<` with the sender as partner when the
target is the receiver, else `>>` with the receiver as partner and a
negated amount when the target is the sender, and otherwise raise
`RuntimeError`. -/
def renderLine (s : DbState) (uid : Int) (localized : Bool) (e : Entry) :
    Except Unit String :=
  let reason := match e.reason with
    | none => DEFAULT_NULL_REASON_REPLACE
    | some r => r
  if e.receiver = uid then
    .ok (renderTimestamp localized e.registered ++ ": " ++ fixed2 e.amount ++
         ": me << " ++ padName (s.name e.sender) ++ " :: " ++ reason)
  else if e.sender = uid then
    .ok (renderTimestamp localized e.registered ++ ": " ++ fixed2 (-e.amount) ++
         ": me >> " ++ padName (s.name e.receiver) ++ " :: " ++ reason)
  else .error ()

/-- The line-collecting loop of `TransactionLog.to_string`; a
`RuntimeError` on any entry propagates. -/
def renderLines (s : DbState) (uid : Int) (localized : Bool) :
    List Entry → Except Unit (List String)
  | [] => .ok []
  | e :: rest => do
      let line ← renderLine s uid localized e
      let more ← renderLines s uid localized rest
      .ok (line :: more)

/-- `TransactionLog.to_string`: join the rendered lines with a newline,
or produce the empty string when there are no lines. -/
def TransactionLog.to_string (s : DbState) (tl : TransactionLog) (localized : Bool) :
    Except Unit String :=
  (renderLines s tl.uid localized tl.log).map
    (fun logs => if logs.length > 0 then String.intercalate "\n" logs else "")

/-- One element of the machine-readable rendering: the raw row with the
timestamp replaced by its integer epoch-seconds value. -/
structure JsonEntry where
  eid : Int
  sender : Int
  receiver : Int
  amount : Int
  reason : Option String
  registered : Int
deriving DecidableEq

/-- `TransactionLog.to_json`: copy every raw row, converting only the
`registered` timestamp to an integer UNIX timestamp; no placeholder
substitution on the reason. -/
def TransactionLog.to_json (tl : TransactionLog) : List JsonEntry :=
  tl.log.map (fun e =>
    { eid := e.eid, sender := e.sender, receiver := e.receiver,
      amount := e.amount, reason := e.reason,
      registered := e.registered.intTimestamp })

/-! ## Concrete example data shared by witnesses and counterexamples -/

/-- An incoming entry for user 1: user 2 sent 500 cent. -/
def eIn : Entry :=
  { eid := 10, sender := 2, receiver := 1, amount := 500, reason := none,
    registered := ⟨100, 0⟩ }

/-- An outgoing entry for user 1: user 1 sent 200 cent to user 2. -/
def eOut : Entry :=
  { eid := 11, sender := 1, receiver := 2, amount := 200, reason := some "apples",
    registered := ⟨200, 0⟩ }

/-- A store whose ledger holds `eIn` and `eOut` and whose cached balance
for user 1 is the given value; users 1 and 2 resolve. -/
def mkState (bal1 : Int) : DbState :=
  { ledger := [eIn, eOut],
    balances := fun u => if u = 1 then bal1 else 0,
    tid := fun u => if u = 1 ∨ u = 2 then some u else none,
    name := fun _ => "partner",
    nextId := 12 }

/-- The store reporting balance 300 for user 1 (consistent with history). -/
def s300 : DbState := mkState 300

/-- The store reporting balance 250 for user 1 (inconsistent with history). -/
def s250 : DbState := mkState 250

/-- A store with an empty ledger where user 3 resolves and has cached
balance 100. -/
def sEmpty100 : DbState :=
  { ledger := [],
    balances := fun u => if u = 3 then 100 else 0,
    tid := fun u => if u = 3 then some 3 else none,
    name := fun _ => "someone",
    nextId := 1 }

/-- A store with an empty ledger where user 3 resolves and has cached
balance 0. -/
def sEmpty0 : DbState :=
  { ledger := [],
    balances := fun _ => 0,
    tid := fun u => if u = 3 then some 3 else none,
    name := fun _ => "someone",
    nextId := 1 }

/-- An uncommitted example transaction: user 1 pays user 2 thirty cent. -/
def tEx : Transaction :=
  { src := 1, dst := 2, amount := 30, reason := some "mate",
    committed := false, id := none }

/-! ## Transfer: helper lemmas -/

/-- Characterization of a successful `commit` on a fresh transaction:
the guards pass, one ledger entry is appended with the next id, the two
balance rows are rewritten from the refreshed balances, the id counter
advances, and the object is marked committed with the assigned id. -/
theorem Transaction.commit_success (s : DbState) (t : Transaction) (now : Instant)
    (h1 : 0 < t.amount) (h2 : t.committed = false) (h3 : t.id = none) :
    Transaction.commit s t now none =
      ({ ledger := s.ledger ++
           [{ eid := s.nextId, sender := t.src, receiver := t.dst,
              amount := t.amount, reason := t.reason, registered := now }],
         balances := fun u =>
           if u = t.dst then s.balances t.dst + t.amount
           else if u = t.src then s.balances t.src - t.amount
           else s.balances u,
         tid := s.tid, name := s.name, nextId := s.nextId + 1 },
       { t with committed := true, id := some s.nextId }, false) := by
  have hn : ¬ t.amount < 0 := by omega
  have hz : ¬ t.amount = 0 := by omega
  simp [Transaction.commit, hn, hz, h2, h3]

/-! ## C1: conservation of money -/

/-- C1: for a Transaction built from two distinct valid accounts and a
positive amount, a successful `commit()` raises nothing, marks the
object committed, increases the destination balance by `amount`,
decreases the source balance by `amount`, and rewrites the balance
table at exactly those two rows (every other account keeps its old
balance). -/
theorem transaction_commit_conservation (s : DbState) (t : Transaction)
    (now : Instant) (h1 : 0 < t.amount) (h2 : t.committed = false)
    (h3 : t.id = none) (hne : t.src ≠ t.dst) :
    (Transaction.commit s t now none).2.2 = false ∧
    (Transaction.commit s t now none).2.1.committed = true ∧
    (Transaction.commit s t now none).1.balances t.dst
      = s.balances t.dst + t.amount ∧
    (Transaction.commit s t now none).1.balances t.src
      = s.balances t.src - t.amount ∧
    (Transaction.commit s t now none).1.balances
      = fun u => if u = t.dst then s.balances t.dst + t.amount
                 else if u = t.src then s.balances t.src - t.amount
                 else s.balances u := by
  rw [Transaction.commit_success s t now h1 h2 h3]
  refine ⟨rfl, rfl, by simp, ?_, rfl⟩
  simp [hne]

/-- C1 witness: the conservation theorem evaluated on the concrete store
`s300` and the concrete transaction `tEx` (user 1 pays user 2 thirty
cent). -/
theorem transaction_commit_conservation_witness :
    0 < tEx.amount ∧ tEx.committed = false ∧ tEx.id = none ∧ tEx.src ≠ tEx.dst ∧
    ((Transaction.commit s300 tEx ⟨300, 0⟩ none).2.2 = false ∧
     (Transaction.commit s300 tEx ⟨300, 0⟩ none).2.1.committed = true ∧
     (Transaction.commit s300 tEx ⟨300, 0⟩ none).1.balances tEx.dst
       = s300.balances tEx.dst + tEx.amount ∧
     (Transaction.commit s300 tEx ⟨300, 0⟩ none).1.balances tEx.src
       = s300.balances tEx.src - tEx.amount ∧
     (Transaction.commit s300 tEx ⟨300, 0⟩ none).1.balances
       = fun u => if u = tEx.dst then s300.balances tEx.dst + tEx.amount
                  else if u = tEx.src then s300.balances tEx.src - tEx.amount
                  else s300.balances u) :=
  ⟨by decide, by decide, by decide, by decide,
   transaction_commit_conservation s300 tEx ⟨300, 0⟩ (by decide) (by decide)
     (by decide) (by decide)⟩

/-! ## C2: atomicity of a failed commit -/

/-- C2 counterexample: inject a store failure at the first balance
`UPDATE` (before the atomic unit is finalized).  No ledger entry or
balance change becomes visible and the object stays uncommitted, but a
later `commit()` on the same object does NOT perform the full commit:
the failed attempt already assigned `_id`, so the retry leaves the
object uncommitted and appends nothing — refuting the claim that the
Transaction is still retryable. -/
theorem commit_failed_retry_counterexample :
    (Transaction.commit s300 tEx ⟨300, 0⟩ (some .updateBal1)).1.ledger = s300.ledger ∧
    (Transaction.commit s300 tEx ⟨300, 0⟩ (some .updateBal1)).2.1.committed = false ∧
    (Transaction.commit s300 tEx ⟨300, 0⟩ (some .updateBal1)).2.1.id = some 12 ∧
    (Transaction.commit s300
        (Transaction.commit s300 tEx ⟨300, 0⟩ (some .updateBal1)).2.1
        ⟨301, 0⟩ none).2.1.committed = false ∧
    (Transaction.commit s300
        (Transaction.commit s300 tEx ⟨300, 0⟩ (some .updateBal1)).2.1
        ⟨301, 0⟩ none).1.ledger.length = s300.ledger.length :=
  ⟨rfl, rfl, rfl, rfl, rfl⟩

/-- C2 amended: a store-level failure at any step before the atomic
unit is finalized leaves the store byte-for-byte unchanged and the
Transaction uncommitted; the object's id field is untouched when the
failure happened before the id-select succeeded (balance refreshes,
insert, id select), but is already set when the failure happened at a
balance update or at finalize.  A later `commit()` performs the full
commit exactly in the first case; in the second the id guard makes
every later `commit()` a permanent no-op. -/
theorem commit_prefinalize_atomicity (s : DbState) (t : Transaction)
    (now now2 : Instant) (step : FailStep) (h1 : 0 < t.amount)
    (h2 : t.committed = false) (h3 : t.id = none) :
    Transaction.commit s t now (some step) =
      (s, { t with id := if step = .updateBal1 ∨ step = .updateBal2 ∨ step = .finalize
                         then some s.nextId else t.id }, true) ∧
    (Transaction.commit s (Transaction.commit s t now (some step)).2.1
        now2 none).2.1.committed
      = !decide (step = .updateBal1 ∨ step = .updateBal2 ∨ step = .finalize) ∧
    (Transaction.commit s (Transaction.commit s t now (some step)).2.1
        now2 none).1.ledger.length
      = s.ledger.length +
        (if step = .updateBal1 ∨ step = .updateBal2 ∨ step = .finalize then 0 else 1) := by
  have hn : ¬ t.amount < 0 := by omega
  have hz : ¬ t.amount = 0 := by omega
  cases step <;>
    refine ⟨?_, ?_, ?_⟩ <;>
      (simp [Transaction.commit, hn, hz, h2, h3]) <;>
      (cases t
       simp_all)

/-- C2 amended witness: the atomicity theorem evaluated at the concrete
store `s300`, transaction `tEx`, and a failure injected at the second
balance update. -/
theorem commit_prefinalize_atomicity_witness :
    0 < tEx.amount ∧ tEx.committed = false ∧ tEx.id = none ∧
    (Transaction.commit s300 tEx ⟨300, 0⟩ (some .updateBal2) =
      (s300, { tEx with id := if FailStep.updateBal2 = .updateBal1 ∨ FailStep.updateBal2 = .updateBal2 ∨ FailStep.updateBal2 = .finalize then some s300.nextId else tEx.id }, true) ∧
     (Transaction.commit s300
         (Transaction.commit s300 tEx ⟨300, 0⟩ (some .updateBal2)).2.1
         ⟨301, 0⟩ none).2.1.committed
       = !decide (FailStep.updateBal2 = .updateBal1 ∨ FailStep.updateBal2 = .updateBal2 ∨
                  FailStep.updateBal2 = .finalize) ∧
     (Transaction.commit s300
         (Transaction.commit s300 tEx ⟨300, 0⟩ (some .updateBal2)).2.1
         ⟨301, 0⟩ none).1.ledger.length
       = s300.ledger.length +
         (if FailStep.updateBal2 = .updateBal1 ∨ FailStep.updateBal2 = .updateBal2 ∨
             FailStep.updateBal2 = .finalize then 0 else 1)) :=
  ⟨by decide, by decide, by decide,
   commit_prefinalize_atomicity s300 tEx ⟨300, 0⟩ ⟨301, 0⟩ .updateBal2
     (by decide) (by decide) (by decide)⟩

/-! ## C3: idempotent commit -/

/-- C3: once a Transaction has been committed, a second `commit()` call
(whatever the store would have done) returns store and object unchanged
without raising, and after the two calls exactly one ledger entry was
appended, each of the two balances changed exactly once, and the
committed flag and assigned id are those of the first call. -/
theorem transaction_commit_idempotent (s : DbState) (t : Transaction)
    (now now2 : Instant) (f2 : Option FailStep) (h1 : 0 < t.amount)
    (h2 : t.committed = false) (h3 : t.id = none) (hne : t.src ≠ t.dst) :
    Transaction.commit (Transaction.commit s t now none).1
        (Transaction.commit s t now none).2.1 now2 f2
      = ((Transaction.commit s t now none).1,
         (Transaction.commit s t now none).2.1, false) ∧
    (Transaction.commit s t now none).1.ledger.length = s.ledger.length + 1 ∧
    (Transaction.commit s t now none).1.balances t.dst
      = s.balances t.dst + t.amount ∧
    (Transaction.commit s t now none).1.balances t.src
      = s.balances t.src - t.amount ∧
    (Transaction.commit s t now none).2.1.committed = true ∧
    (Transaction.commit s t now none).2.1.id = some s.nextId := by
  have hn : ¬ t.amount < 0 := by omega
  have hz : ¬ t.amount = 0 := by omega
  rw [Transaction.commit_success s t now h1 h2 h3]
  refine ⟨?_, by simp, by simp, by simp [hne], rfl, rfl⟩
  simp [Transaction.commit, hn, hz]

/-- C3 witness: the idempotency theorem evaluated on the concrete store
`s300` and transaction `tEx`, with a would-be store failure injected
into the second call to show it performs no store work at all. -/
theorem transaction_commit_idempotent_witness :
    0 < tEx.amount ∧ tEx.committed = false ∧ tEx.id = none ∧ tEx.src ≠ tEx.dst ∧
    (Transaction.commit (Transaction.commit s300 tEx ⟨300, 0⟩ none).1
        (Transaction.commit s300 tEx ⟨300, 0⟩ none).2.1 ⟨301, 0⟩ (some .finalize)
      = ((Transaction.commit s300 tEx ⟨300, 0⟩ none).1,
         (Transaction.commit s300 tEx ⟨300, 0⟩ none).2.1, false) ∧
     (Transaction.commit s300 tEx ⟨300, 0⟩ none).1.ledger.length
       = s300.ledger.length + 1 ∧
     (Transaction.commit s300 tEx ⟨300, 0⟩ none).1.balances tEx.dst
       = s300.balances tEx.dst + tEx.amount ∧
     (Transaction.commit s300 tEx ⟨300, 0⟩ none).1.balances tEx.src
       = s300.balances tEx.src - tEx.amount ∧
     (Transaction.commit s300 tEx ⟨300, 0⟩ none).2.1.committed = true ∧
     (Transaction.commit s300 tEx ⟨300, 0⟩ none).2.1.id = some s300.nextId) :=
  ⟨by decide, by decide, by decide, by decide,
   transaction_commit_idempotent s300 tEx ⟨300, 0⟩ ⟨301, 0⟩ (some .finalize)
     (by decide) (by decide) (by decide) (by decide)⟩

/-! ## Ledger view: helper lemmas -/

/-- Every entry fetched in mode 0 names the target as sender or receiver. -/
theorem fetchLog_mode0_relevant (s : DbState) (uid : Int) :
    ∀ e ∈ fetchLog s uid 0, e.sender = uid ∨ e.receiver = uid := by
  intro e he
  have h : e ∈ s.ledger ∧ (e.sender = uid ∨ e.receiver = uid) := by
    simpa [fetchLog, List.mem_filter] using he
  exact h.2

/-- On a snapshot of relevant entries the raising fold agrees with the
total signed sum. -/
theorem signedFold_relevant (uid : Int) (l : List Entry)
    (h : ∀ e ∈ l, e.sender = uid ∨ e.receiver = uid) (start : Int) :
    signedFold uid l start = .ok (signedSum uid l start) := by
  induction l generalizing start with
  | nil => rfl
  | cons a rest ih =>
    have ha := h a (List.mem_cons_self a rest)
    have hrest : ∀ e ∈ rest, e.sender = uid ∨ e.receiver = uid :=
      fun e he => h e (List.mem_cons_of_mem a he)
    by_cases h1 : a.receiver = uid
    · simp [signedFold, signedSum, h1, ih hrest]
    · have h2 : a.sender = uid := by tauto
      simp [signedFold, signedSum, h1, h2, ih hrest]

/-! ## C4: balance reconstruction in mode 0 -/

/-- C4: a mode-0 ledger view always constructs (its snapshot contains
only relevant entries, so `validate()` cannot raise), its recomputed
balance is the signed fold over the snapshot from baseline 0 (add when
target is receiver, subtract when target is sender), and its valid flag
equals (history non-empty or account resolvable) AND (recomputed
balance equals the store's cached balance).  In particular, over the
entries `[(receiver, +500), (sender, -200)]` the recomputed balance is
300, a store reporting 300 gives a valid view, and a store reporting
250 gives an invalid one. -/
theorem tlog_mode0_validate_reconstruction (s : DbState) (uid : Int) :
    TransactionLog.init s uid 0 =
      .ok { uid := uid, mode := 0, log := fetchLog s uid 0,
            valid := some ((!decide ((fetchLog s uid 0).length = 0 ∧ s.tid uid = none)) &&
                           decide (signedSum uid (fetchLog s uid 0) 0 = s.balances uid)) } ∧
    signedSum 1 (fetchLog s300 1 0) 0 = 300 ∧
    TransactionLog.init s300 1 0 =
      .ok { uid := 1, mode := 0, log := [eIn, eOut], valid := some true } ∧
    TransactionLog.init s250 1 0 =
      .ok { uid := 1, mode := 0, log := [eIn, eOut], valid := some false } := by
  refine ⟨?_, rfl, rfl, rfl⟩
  have hrel := fetchLog_mode0_relevant s uid
  have hfold := signedFold_relevant uid (fetchLog s uid 0) hrel 0
  by_cases h : (fetchLog s uid 0).length = 0 ∧ s.tid uid = none
  · simp [TransactionLog.init, TransactionLog.validate, hfold, Except.map,
          pyAnd, h.1, h.2]
  · rcases not_and_or.mp h with h1 | h1 <;>
      simp [TransactionLog.init, TransactionLog.validate, hfold, Except.map,
            pyAnd, h1]

/-! ## C5: directional filtering -/

/-- C5: the snapshot fetched at construction contains exactly the
ledger entries selected by the mode's direction — sender-side for
negative mode, receiver-side for positive mode, either side for mode
0 — and on the concrete ledger where user 1 is sender once and
receiver once the three modes fetch one, one and two entries. -/
theorem tlog_directional_filtering (s : DbState) (uid mode : Int) (e : Entry) :
    (e ∈ fetchLog s uid mode ↔ e ∈ s.ledger ∧
      (if mode < 0 then e.sender = uid
       else if 0 < mode then e.receiver = uid
       else e.sender = uid ∨ e.receiver = uid)) ∧
    fetchLog s300 1 (-1) = [eOut] ∧
    fetchLog s300 1 1 = [eIn] ∧
    fetchLog s300 1 0 = [eIn, eOut] := by
  refine ⟨?_, rfl, rfl, rfl⟩
  by_cases h1 : mode < 0
  · simp [fetchLog, h1, List.mem_filter]
  · by_cases h2 : 0 < mode <;> simp [fetchLog, h1, h2, List.mem_filter]

/-! ## C6: construction-time validation -/

/-- C6: constructing a Transaction fails with the `InvalidAmount`
condition exactly when `amount <= 0` (the amount guard runs first), and
fails with the `InvalidParticipant` condition exactly when the amount
is positive and an endpoint is not an account object; construction
performs no store calls, so the threaded store state is returned
unchanged, and a failed construction produces no Transaction value.
In particular amounts 0 and -100 fail with `InvalidAmount` and a
non-account source fails with `InvalidParticipant`. -/
theorem transaction_init_validation (s : DbState) (src dst : PyObject)
    (amount : Int) (reason : Option String) :
    (Transaction.init src dst amount reason = .error .invalidAmount ↔ amount ≤ 0) ∧
    (Transaction.init src dst amount reason = .error .invalidParticipant ↔
      (0 < amount ∧ (src.isUser = false ∨ dst.isUser = false))) ∧
    (Transaction.initS s src dst amount reason).1 = s ∧
    (∀ t : Transaction, Transaction.init src dst amount reason = .ok t →
      0 < amount ∧ src.isUser = true ∧ dst.isUser = true) ∧
    Transaction.init (.user 1) (.user 2) 0 none = .error .invalidAmount ∧
    Transaction.init (.user 1) (.user 2) (-100) none = .error .invalidAmount ∧
    Transaction.init .other (.user 2) 5 none = .error .invalidParticipant := by
  refine ⟨?_, ?_, rfl, ?_, rfl, rfl, rfl⟩
  · by_cases h : amount ≤ 0
    · simp [Transaction.init, h]
    · cases src <;> cases dst <;> simp [Transaction.init, h]
  · by_cases h : amount ≤ 0
    · have h0 : ¬ 0 < amount := by omega
      cases src <;> cases dst <;>
        simp [Transaction.init, PyObject.isUser, h, h0]
    · have h0 : 0 < amount := by omega
      cases src <;> cases dst <;>
        simp [Transaction.init, PyObject.isUser, h, h0]
  · intro t ht
    by_cases h : amount ≤ 0
    · simp [Transaction.init, h] at ht
    · cases src <;> cases dst <;>
        simp [Transaction.init, PyObject.isUser, h] at ht ⊢
      omega

/-- C6 witness: the validation theorem instantiated at a concrete
store, concrete endpoints and a concrete amount. -/
theorem transaction_init_validation_witness :
    (Transaction.init (.user 1) (.user 2) 30 none = .error .invalidAmount ↔
      (30 : Int) ≤ 0) ∧
    (Transaction.init (.user 1) (.user 2) 30 none = .error .invalidParticipant ↔
      ((0 : Int) < 30 ∧ ((PyObject.user 1).isUser = false ∨
                         (PyObject.user 2).isUser = false))) ∧
    (Transaction.initS s300 (.user 1) (.user 2) 30 none).1 = s300 ∧
    (∀ t : Transaction, Transaction.init (.user 1) (.user 2) 30 none = .ok t →
      (0 : Int) < 30 ∧ (PyObject.user 1).isUser = true ∧
      (PyObject.user 2).isUser = true) ∧
    Transaction.init (.user 1) (.user 2) 0 none = .error .invalidAmount ∧
    Transaction.init (.user 1) (.user 2) (-100) none = .error .invalidAmount ∧
    Transaction.init .other (.user 2) 5 none = .error .invalidParticipant :=
  transaction_init_validation s300 (.user 1) (.user 2) 30 none

/-! ## C7: empty history for a known account -/

/-- C7 counterexample: user 3 resolves to a known identity and has
zero ledger entries, but the store's cached balance for user 3 is 100;
`validate()` compares the recomputed balance 0 against 100, so the
mode-0 view is constructed with `valid = False`, refuting the claim
that a resolvable account with empty history always yields
`valid == true`. -/
theorem tlog_empty_known_nonzero_counterexample :
    sEmpty100.tid 3 = some 3 ∧ fetchLog sEmpty100 3 0 = [] ∧
    TransactionLog.init sEmpty100 3 0 =
      .ok { uid := 3, mode := 0, log := [], valid := some false } :=
  ⟨rfl, rfl, rfl⟩

/-- C7 amended: for an account that resolves to a known identity, has
zero fetched entries, and whose cached balance equals the baseline 0,
the mode-0 view has `valid = True` and the human-readable rendering is
the empty string (in both time-zone modes). -/
theorem tlog_empty_known_account (s : DbState) (uid : Int)
    (hres : s.tid uid ≠ none) (hempty : fetchLog s uid 0 = [])
    (hbal : s.balances uid = 0) :
    TransactionLog.init s uid 0 =
      .ok { uid := uid, mode := 0, log := [], valid := some true } ∧
    TransactionLog.to_string s
      { uid := uid, mode := 0, log := [], valid := some true } true = .ok "" ∧
    TransactionLog.to_string s
      { uid := uid, mode := 0, log := [], valid := some true } false = .ok "" := by
  refine ⟨?_, rfl, rfl⟩
  simp [TransactionLog.init, TransactionLog.validate, hempty, hres, hbal,
        signedFold, pyAnd, Except.map]

/-- C7 amended witness: the empty-history theorem evaluated on the
concrete store `sEmpty0` (user 3 known, no entries, balance 0). -/
theorem tlog_empty_known_account_witness :
    sEmpty0.tid 3 ≠ none ∧ fetchLog sEmpty0 3 0 = [] ∧ sEmpty0.balances 3 = 0 ∧
    (TransactionLog.init sEmpty0 3 0 =
       .ok { uid := 3, mode := 0, log := [], valid := some true } ∧
     TransactionLog.to_string sEmpty0
       { uid := 3, mode := 0, log := [], valid := some true } true = .ok "" ∧
     TransactionLog.to_string sEmpty0
       { uid := 3, mode := 0, log := [], valid := some true } false = .ok "") :=
  ⟨by decide, rfl, rfl,
   tlog_empty_known_account sEmpty0 3 (by decide) rfl rfl⟩

/-! ## C8: ledger consistency fault -/

/-- The raising fold aborts whenever the snapshot contains an entry
naming neither the target as sender nor as receiver. -/
theorem signedFold_fault (uid : Int) (l : List Entry) (e : Entry)
    (he : e ∈ l) (hs : ¬ e.sender = uid) (hr : ¬ e.receiver = uid) :
    ∀ start, signedFold uid l start = .error () := by
  induction l with
  | nil => cases he
  | cons a rest ih =>
    intro start
    rcases List.mem_cons.mp he with h | h
    · subst h
      simp [signedFold, hs, hr]
    · by_cases h1 : a.receiver = uid
      · simpa [signedFold, h1] using ih h _
      · by_cases h2 : a.sender = uid
        · simpa [signedFold, h1, h2] using ih h _
        · simp [signedFold, h1, h2]

/-- The rendering loop aborts whenever the snapshot contains an entry
naming neither the target as sender nor as receiver. -/
theorem renderLines_fault (s : DbState) (uid : Int) (localized : Bool)
    (l : List Entry) (e : Entry) (he : e ∈ l) (hs : ¬ e.sender = uid)
    (hr : ¬ e.receiver = uid) :
    renderLines s uid localized l = .error () := by
  induction l with
  | nil => cases he
  | cons a rest ih =>
    rcases List.mem_cons.mp he with h | h
    · subst h
      simp [renderLines, renderLine, hs, hr, Except.bind, bind]
    · cases hra : renderLine s uid localized a with
      | error u => cases u; simp [renderLines, hra, Except.bind, bind]
      | ok line => simp [renderLines, hra, ih h, Except.bind, bind]

/-- C8: if the fetched snapshot of a mode-0 view contains an entry
whose sender and receiver both differ from the target account, both the
validation pass (at any baseline) and the human-readable rendering (in
either time-zone mode) abort with the fatal `RuntimeError` instead of
skipping the entry. -/
theorem tlog_consistency_fault (s : DbState) (tl : TransactionLog) (e : Entry)
    (start : Int) (localized : Bool) (hm : tl.mode = 0) (he : e ∈ tl.log)
    (hs : ¬ e.sender = tl.uid) (hr : ¬ e.receiver = tl.uid) :
    TransactionLog.validate s tl start = .error () ∧
    TransactionLog.to_string s tl localized = .error () := by
  constructor
  · simp [TransactionLog.validate, hm, Except.map,
          signedFold_fault tl.uid tl.log e he hs hr start]
  · simp [TransactionLog.to_string,
          renderLines_fault s tl.uid localized tl.log e he hs hr, Except.map]

/-- A foreign entry: neither sender nor receiver is user 1. -/
def eForeign : Entry :=
  { eid := 77, sender := 5, receiver := 6, amount := 40, reason := none,
    registered := ⟨400, 0⟩ }

/-- C8 witness: the fault theorem evaluated on a concrete mode-0 view
for user 1 whose snapshot contains only the foreign entry. -/
theorem tlog_consistency_fault_witness :
    ({ uid := 1, mode := 0, log := [eForeign], valid := some true } :
        TransactionLog).mode = 0 ∧
    eForeign ∈ ({ uid := 1, mode := 0, log := [eForeign], valid := some true } :
        TransactionLog).log ∧
    ¬ eForeign.sender = 1 ∧ ¬ eForeign.receiver = 1 ∧
    (TransactionLog.validate s300
       { uid := 1, mode := 0, log := [eForeign], valid := some true } 0
       = .error () ∧
     TransactionLog.to_string s300
       { uid := 1, mode := 0, log := [eForeign], valid := some true } true
       = .error ()) :=
  ⟨rfl, by decide, by decide, by decide,
   tlog_consistency_fault s300
     { uid := 1, mode := 0, log := [eForeign], valid := some true }
     eForeign 0 true rfl (by decide) (by decide) (by decide)⟩

/-! ## C9: machine-readable rendering -/

/-- An entry whose stored instant has a fractional-second component. -/
def eFrac : Entry :=
  { eid := 21, sender := 1, receiver := 2, amount := 5, reason := none,
    registered := ⟨0, 500000⟩ }

/-- C9 counterexample: `to_json` keeps amount and reason but converts
the timestamp with `int(dt.timestamp())`, which truncates the
sub-second part; for the stored instant 0.5s the portable value is 0,
and re-deriving an instant from 0 yields the whole-second instant
⟨0, 0⟩, not the original ⟨0, 500000⟩ — refuting the unconditional
round-trip law. -/
theorem to_json_roundtrip_counterexample :
    ({ uid := 2, mode := 0, log := [eFrac], valid := none } :
        TransactionLog).to_json =
      [{ eid := 21, sender := 1, receiver := 2, amount := 5, reason := none,
         registered := 0 }] ∧
    Instant.fromEpoch 0 ≠ eFrac.registered :=
  ⟨rfl, by decide⟩

/-- C9 amended: the machine-readable rendering has one element per raw
row; the i-th element keeps the stored id, sender, receiver, amount and
reason byte-for-byte (a null reason stays null, no placeholder) and
replaces the timestamp by its integer epoch-seconds value; and for
entries whose stored instant carries no sub-second part (as produced by
a second-resolution store) re-deriving an instant from that epoch value
reproduces the original stored instant. -/
theorem to_json_portable (tl : TransactionLog) (i : Nat)
    (h : i < tl.log.length)
    (hmicro : (tl.log.get ⟨i, h⟩).registered.micro = 0) :
    tl.to_json.length = tl.log.length ∧
    tl.to_json[i]? = some
      { eid := (tl.log.get ⟨i, h⟩).eid,
        sender := (tl.log.get ⟨i, h⟩).sender,
        receiver := (tl.log.get ⟨i, h⟩).receiver,
        amount := (tl.log.get ⟨i, h⟩).amount,
        reason := (tl.log.get ⟨i, h⟩).reason,
        registered := (tl.log.get ⟨i, h⟩).registered.intTimestamp } ∧
    Instant.fromEpoch ((tl.log.get ⟨i, h⟩).registered.intTimestamp)
      = (tl.log.get ⟨i, h⟩).registered := by
  refine ⟨by simp [TransactionLog.to_json], ?_, ?_⟩
  · simp [TransactionLog.to_json, List.getElem?_map,
          List.getElem?_eq_getElem h, List.get_eq_getElem]
  · cases hreg : (tl.log.get ⟨i, h⟩).registered with
    | mk sec micro =>
      have : micro = 0 := by
        have := hmicro
        rw [hreg] at this
        exact this
      subst this
      simp [Instant.intTimestamp, Instant.fromEpoch]

/-- C9 amended witness: the portable-rendering theorem evaluated on a
concrete one-entry view whose stored instant is a whole second. -/
theorem to_json_portable_witness :
    (0 : Nat) < ({ uid := 1, mode := 0, log := [eIn], valid := some true } :
        TransactionLog).log.length ∧
    (({ uid := 1, mode := 0, log := [eIn], valid := some true } :
        TransactionLog).log.get ⟨0, by decide⟩).registered.micro = 0 ∧
    (({ uid := 1, mode := 0, log := [eIn], valid := some true } :
        TransactionLog).to_json.length =
      ({ uid := 1, mode := 0, log := [eIn], valid := some true } :
        TransactionLog).log.length ∧
     ({ uid := 1, mode := 0, log := [eIn], valid := some true } :
        TransactionLog).to_json[0]? = some
       { eid := (({ uid := 1, mode := 0, log := [eIn], valid := some true } :
             TransactionLog).log.get ⟨0, by decide⟩).eid,
         sender := (({ uid := 1, mode := 0, log := [eIn], valid := some true } :
             TransactionLog).log.get ⟨0, by decide⟩).sender,
         receiver := (({ uid := 1, mode := 0, log := [eIn], valid := some true } :
             TransactionLog).log.get ⟨0, by decide⟩).receiver,
         amount := (({ uid := 1, mode := 0, log := [eIn], valid := some true } :
             TransactionLog).log.get ⟨0, by decide⟩).amount,
         reason := (({ uid := 1, mode := 0, log := [eIn], valid := some true } :
             TransactionLog).log.get ⟨0, by decide⟩).reason,
         registered := (({ uid := 1, mode := 0, log := [eIn], valid := some true } :
             TransactionLog).log.get ⟨0, by decide⟩).registered.intTimestamp } ∧
     Instant.fromEpoch
       ((({ uid := 1, mode := 0, log := [eIn], valid := some true } :
             TransactionLog).log.get ⟨0, by decide⟩).registered.intTimestamp)
       = (({ uid := 1, mode := 0, log := [eIn], valid := some true } :
             TransactionLog).log.get ⟨0, by decide⟩).registered) :=
  ⟨by decide, by decide,
   to_json_portable { uid := 1, mode := 0, log := [eIn], valid := some true }
     0 (by decide) (by decide)⟩

/-! ## C10: non-zero mode yields no positive verdict -/

/-- C10: a ledger view built with a non-zero mode is never marked
valid: `validate()` returns `None`, so after the Python `and` the flag
is `False` exactly when the query returned zero rows and the account
does not resolve, and `None` (no verdict) in every other case. -/
theorem tlog_nonzero_mode_no_verdict (s : DbState) (uid mode : Int)
    (hm : mode ≠ 0) :
    TransactionLog.init s uid mode =
      .ok { uid := uid, mode := mode, log := fetchLog s uid mode,
            valid := if (fetchLog s uid mode).length = 0 ∧ s.tid uid = none
                     then some false else none } ∧
    (if (fetchLog s uid mode).length = 0 ∧ s.tid uid = none
     then some false else (none : Option Bool)) ≠ some true := by
  constructor
  · by_cases h : (fetchLog s uid mode).length = 0 ∧ s.tid uid = none
    · simp [TransactionLog.init, TransactionLog.validate, hm, pyAnd,
            Except.map, h.1, h.2]
    · rcases not_and_or.mp h with h1 | h1 <;>
        simp [TransactionLog.init, TransactionLog.validate, hm, pyAnd,
              Except.map, h1]
  · split <;> simp

/-- C10 witness: the no-verdict theorem evaluated on the concrete store
`s300` with the outgoing-only mode for user 1 (one row fetched, so the
flag is `None`). -/
theorem tlog_nonzero_mode_no_verdict_witness :
    (-1 : Int) ≠ 0 ∧
    (TransactionLog.init s300 1 (-1) =
       .ok { uid := 1, mode := -1, log := fetchLog s300 1 (-1),
             valid := if (fetchLog s300 1 (-1)).length = 0 ∧ s300.tid 1 = none
                      then some false else none } ∧
     (if (fetchLog s300 1 (-1)).length = 0 ∧ s300.tid 1 = none
      then some false else (none : Option Bool)) ≠ some true) :=
  ⟨by decide, tlog_nonzero_mode_no_verdict s300 1 (-1) (by decide)⟩
